import Mathlib

/-!
Shallow embedding of the HRMS shared Kafka event subsystem
(services/shared/kafka: consumer.py, producer.py, schemas.py, and the
service-level DLQ handlers in notification_consumer.py / audit_consumer.py).

Modelling conventions:
* Python exceptions are values of `PyExc` (type name plus message); a
  fallible call is a function returning `Option PyExc` (`none` = returned
  normally, `some e` = raised `e`).
* The consumer loops are pure functions from the finite list of messages
  the broker delivers to a trace of observable actions (`Ev`): handler
  invocations, DLQ invocations and offset commits.  Loop termination of
  the `async for` iterator (broker stream ends, or `stop()` flips
  `running` in the cooperative single-task model) is modelled by the
  message list running out.
* Broker interactions of the producer (connect, send/ack) are modelled by
  explicit outcome parameters, since their results are decided outside
  the embedded code.
-/

namespace HRMS

/-- A Python exception value: its type name and its string rendering. -/
structure PyExc where
  name : String
  msg : String
  deriving DecidableEq, Repr

/-- Observable action of a consumer loop: a (single-message) handler
invocation, a DLQ-handler invocation, a batch-handler invocation, a
batch-DLQ invocation, or an offset commit. -/
inductive Ev (α : Type) where
  | handlerCall (m : α)
  | dlqCall (m : α) (e : PyExc)
  | batchCall (b : List α)
  | dlqBatchCall (b : List α) (e : PyExc)
  | commit
  deriving DecidableEq, Repr

/-- State of `KafkaConsumer` (consumer.py): the constructor configuration
that the consume loops read, plus `_started` and whether `_consumer` is
set (`hasConn` models `self._consumer is not None`). -/
structure KafkaConsumer where
  bootstrap_servers : String
  group_id : String
  topics : List String
  enable_auto_commit : Bool
  started : Bool
  hasConn : Bool
  deriving DecidableEq, Repr

/-- Body of the `async for` loop of `KafkaConsumer.consume`: for each
message, invoke the handler; on success commit (when auto-commit is off);
on handler exception invoke the DLQ handler when present (swallowing any
exception the DLQ handler itself raises) and then commit anyway. -/
def consumeLoop {α : Type} (c : KafkaConsumer) (handler : α → Option PyExc)
    (dlqHandler : Option (α → PyExc → Option PyExc)) : List α → List (Ev α)
  | [] => []
  | m :: rest =>
    match handler m with
    | none =>
        Ev.handlerCall m ::
          ((if c.enable_auto_commit then [] else [Ev.commit]) ++
            consumeLoop c handler dlqHandler rest)
    | some e =>
        Ev.handlerCall m ::
          ((match dlqHandler with
            | none => []
            | some dlq =>
                match dlq m e with
                | none => [Ev.dlqCall m e]
                | some _ => [Ev.dlqCall m e]) ++
            ((if c.enable_auto_commit then [] else [Ev.commit]) ++
              consumeLoop c handler dlqHandler rest))

/-- `KafkaConsumer.consume`: refuses to run (empty trace, immediate
return) unless `self._started` and `self._consumer` are set, else runs
the per-message loop over the delivered messages. -/
def consume {α : Type} (c : KafkaConsumer) (handler : α → Option PyExc)
    (dlqHandler : Option (α → PyExc → Option PyExc)) (msgs : List α) :
    List (Ev α) :=
  if ¬ c.started ∨ ¬ c.hasConn then [] else consumeLoop c handler dlqHandler msgs

/-- Body of the `async for` loop of `KafkaConsumer.consume_batch`
together with the trailing partial-batch flush.  Messages are appended to
`batch`; once `len(batch) >= batch_size` the batch handler runs, a commit
follows on success, and on failure the batch goes to the DLQ handler
(exceptions from it swallowed) and the commit still happens; then the
batch resets.  When the stream ends, a nonempty pending batch is handled
once more — but in the source the failure branch of this final flush has
no commit. -/
def consumeBatchLoop {α : Type} (c : KafkaConsumer)
    (handler : List α → Option PyExc)
    (dlqHandler : Option (List α → PyExc → Option PyExc)) (batchSize : Nat)
    (batch : List α) : List α → List (Ev α)
  | [] =>
      if batch.isEmpty then []
      else
        match handler batch with
        | none => Ev.batchCall batch :: (if c.enable_auto_commit then [] else [Ev.commit])
        | some e =>
            Ev.batchCall batch ::
              (match dlqHandler with
               | none => []
               | some dlq =>
                   match dlq batch e with
                   | none => [Ev.dlqBatchCall batch e]
                   | some _ => [Ev.dlqBatchCall batch e])
  | m :: rest =>
      let batch2 := batch ++ [m]
      if batchSize ≤ batch2.length then
        match handler batch2 with
        | none =>
            Ev.batchCall batch2 ::
              ((if c.enable_auto_commit then [] else [Ev.commit]) ++
                consumeBatchLoop c handler dlqHandler batchSize [] rest)
        | some e =>
            Ev.batchCall batch2 ::
              ((match dlqHandler with
                | none => []
                | some dlq =>
                    match dlq batch2 e with
                    | none => [Ev.dlqBatchCall batch2 e]
                    | some _ => [Ev.dlqBatchCall batch2 e]) ++
                ((if c.enable_auto_commit then [] else [Ev.commit]) ++
                  consumeBatchLoop c handler dlqHandler batchSize [] rest))
      else consumeBatchLoop c handler dlqHandler batchSize batch2 rest

/-- `KafkaConsumer.consume_batch`: same started/connection guard as
`consume`, then the batch loop starting from an empty pending batch. -/
def consume_batch {α : Type} (c : KafkaConsumer)
    (handler : List α → Option PyExc)
    (dlqHandler : Option (List α → PyExc → Option PyExc)) (batchSize : Nat)
    (msgs : List α) : List (Ev α) :=
  if ¬ c.started ∨ ¬ c.hasConn then []
  else consumeBatchLoop c handler dlqHandler batchSize [] msgs

/-- State of `KafkaProducer` (producer.py): constructor configuration plus
`started` (`self._started`) and `hasConn` (`self._producer is not None`). -/
structure KafkaProducer where
  bootstrap_servers : String
  client_id : String
  acks : String
  retries : Nat
  compression_type : String
  hasConn : Bool
  started : Bool
  deriving DecidableEq, Repr

/-- Python's `x or default` applied to an optional string: `None` and
the falsy empty string both fall back to the default. -/
def pyStrOrDefault (x : Option String) (dflt : String) : String :=
  match x with
  | none => dflt
  | some s => if s = "" then dflt else s

/-- `KafkaProducer.__init__` with the source's defaults: the expression
`client_id or "hrms-producer"` replaces both `None` and the falsy empty
string with `"hrms-producer"`. -/
def KafkaProducer.init (bs : String) (cid : Option String) : KafkaProducer :=
  { bootstrap_servers := bs
    client_id := pyStrOrDefault cid "hrms-producer"
    acks := "1"
    retries := 3
    compression_type := "lz4"
    hasConn := false
    started := false }

/-- `KafkaProducer.start`: a no-op (with a logged warning) when already
started; otherwise assigns `self._producer` and awaits its start, whose
outcome `connectOk` is decided by the broker.  On connect failure the
exception is logged and re-raised with `_started` still false.  Returns
the new state and whether the call raised. -/
def producerStart (p : KafkaProducer) (connectOk : Bool) : KafkaProducer × Bool :=
  if p.started then (p, false)
  else if connectOk then ({ p with hasConn := true, started := true }, false)
  else ({ p with hasConn := true }, true)

/-- `KafkaProducer.stop`: returns immediately when not started or no
connection object; otherwise stops the connection (an error there is
caught and logged, leaving `_started` set) and clears `_started` on
success.  Never raises. -/
def producerStop (p : KafkaProducer) (stopOk : Bool) : KafkaProducer × Bool :=
  if ¬ p.started ∨ ¬ p.hasConn then (p, false)
  else if stopOk then ({ p with started := false }, false)
  else (p, false)

/-- Outcome of one broker send as seen by `send_event`/`send_raw`: the
broker acknowledged, or a `KafkaError` was raised, or some other
exception was raised (serialization, transport, ...). -/
inductive SendOutcome where
  | acked
  | kafkaError (e : PyExc)
  | otherError (e : PyExc)
  deriving DecidableEq, Repr

/-- `KafkaProducer.send_event`: returns false at once when not started or
no connection; otherwise sends and awaits acknowledgment, returning true
exactly when the broker acknowledged; every exception is caught and
turned into a false return. -/
def send_event (p : KafkaProducer) (outcome : SendOutcome) : Bool :=
  if ¬ p.started ∨ ¬ p.hasConn then false
  else
    match outcome with
    | SendOutcome.acked => true
    | SendOutcome.kafkaError _ => false
    | SendOutcome.otherError _ => false

/-- `KafkaProducer.send_raw`: identical guard and catch-all shape as
`send_event`, without the envelope typing. -/
def send_raw (p : KafkaProducer) (outcome : SendOutcome) : Bool :=
  if ¬ p.started ∨ ¬ p.hasConn then false
  else
    match outcome with
    | SendOutcome.acked => true
    | SendOutcome.kafkaError _ => false
    | SendOutcome.otherError _ => false

/-- Module-level `get_producer` (producer.py): the module global
`_producer_instance` is the `Option KafkaProducer` state.  When the
global is unset, a fresh instance is built from the call's arguments,
published to the global, and started (the global is assigned before the
start, so it stays set even when starting raises).  When the global is
set, it is returned untouched and the arguments are ignored.  Result:
(value returned to the caller if the call did not raise, new global
state, whether the call raised). -/
def get_producer (st : Option KafkaProducer) (bs cid : String) (startOk : Bool) :
    Option KafkaProducer × Option KafkaProducer × Bool :=
  match st with
  | some p => (some p, some p, false)
  | none =>
      let p0 := KafkaProducer.init bs (some cid)
      let r := producerStart p0 startOk
      if r.2 then (none, some r.1, true) else (some r.1, some r.1, false)

/-- Module-level `close_producer`: stops the singleton when present and
resets the global to `None`. -/
def close_producer (st : Option KafkaProducer) (stopOk : Bool) :
    Option KafkaProducer :=
  match st with
  | some p =>
      let _ := producerStop p stopOk
      none
  | none => none

/-- Runs a sequence of `get_producer` calls, threading the module global,
collecting each call's returned value. -/
def runGetCalls (st : Option KafkaProducer) :
    List (String × String × Bool) → List (Option KafkaProducer) × Option KafkaProducer
  | [] => ([], st)
  | (bs, cid, ok) :: rest =>
      let r := get_producer st bs cid ok
      let rec2 := runGetCalls r.2.1 rest
      (r.1 :: rec2.1, rec2.2)

/-- The closed `EventType` enumeration of schemas.py. -/
inductive EventType where
  | USER_CREATED
  | USER_UPDATED
  | USER_DELETED
  | USER_SUSPENDED
  | USER_ACTIVATED
  | USER_PASSWORD_CHANGED
  | EMPLOYEE_CREATED
  | EMPLOYEE_UPDATED
  | EMPLOYEE_TERMINATED
  | EMPLOYEE_STATUS_CHANGED
  | LEAVE_REQUESTED
  | LEAVE_APPROVED
  | LEAVE_REJECTED
  | LEAVE_CANCELLED
  | LEAVE_UPDATED
  | ATTENDANCE_MARKED
  | ATTENDANCE_UPDATED
  | ATTENDANCE_DELETED
  | COMPLIANCE_VIOLATION
  | COMPLIANCE_ALERT
  | COMPLIANCE_CHECK_COMPLETED
  | AUDIT_USER_ACTION
  | AUDIT_EMPLOYEE_ACTION
  | AUDIT_LEAVE_ACTION
  | AUDIT_ATTENDANCE_ACTION
  | AUDIT_COMPLIANCE_ACTION
  deriving DecidableEq, Repr

/-- An open-ended JSON object such as `template_data: Dict[str, Any]`,
modelled as a key/value association list. -/
abbrev JsonDict := List (String × String)

/-- Base envelope fields of `BaseEvent` (schemas.py); `timestamp` is the
ISO rendering of the creation-time `datetime`. -/
structure BaseEvent where
  event_id : String
  event_type : EventType
  timestamp : String
  source_service : String
  correlation_id : Option String
  deriving DecidableEq, Repr

/-- Payload of notification events (`NotificationEventData`). -/
structure NotificationEventData where
  recipient_email : String
  recipient_name : Option String
  subject : String
  template_name : String
  template_data : JsonDict
  priority : String
  deriving DecidableEq, Repr

/-- `NotificationEvent`: the envelope with a notification payload. -/
structure NotificationEvent extends BaseEvent where
  data : NotificationEventData
  deriving DecidableEq, Repr

/-- Payload of audit events (`AuditEventData`). -/
structure AuditEventData where
  user_id : Int
  action : String
  resource_type : String
  resource_id : Int
  description : Option String
  ip_address : Option String
  user_agent : Option String
  old_value : Option String
  new_value : Option String
  changes : Option JsonDict
  deriving DecidableEq, Repr

/-- `AuditEvent`: the envelope with an audit payload. -/
structure AuditEvent extends BaseEvent where
  data : AuditEventData
  deriving DecidableEq, Repr

/-- Factory `create_notification_event` (schemas.py).  The generated
`uuid.uuid4()` and implicit current time are external inputs `freshUuid`
and `now`.  The source's `event_type` parameter defaults to
`EventType.USER_CREATED` and is stamped into the envelope with no
check that it is a notification-domain type. -/
def create_notification_event (source_service : String)
    (recipient_email : String) (subject : String) (template_name : String)
    (template_data : JsonDict) (event_type : EventType)
    (recipient_name : Option String) (priority : String)
    (correlation_id : Option String) (freshUuid : String) (now : String) :
    NotificationEvent :=
  { event_id := freshUuid
    event_type := event_type
    timestamp := now
    source_service := source_service
    correlation_id := correlation_id
    data :=
      { recipient_email := recipient_email
        recipient_name := recipient_name
        subject := subject
        template_name := template_name
        template_data := template_data
        priority := priority } }

/-- Factory `create_audit_event` (schemas.py); same conventions as
`create_notification_event`, source default `EventType.AUDIT_USER_ACTION`,
again with no check that `event_type` is an audit-domain type. -/
def create_audit_event (source_service : String) (user_id : Int)
    (action : String) (resource_type : String) (resource_id : Int)
    (event_type : EventType) (description : Option String)
    (ip_address : Option String) (user_agent : Option String)
    (old_value : Option String) (new_value : Option String)
    (changes : Option JsonDict) (correlation_id : Option String)
    (freshUuid : String) (now : String) : AuditEvent :=
  { event_id := freshUuid
    event_type := event_type
    timestamp := now
    source_service := source_service
    correlation_id := correlation_id
    data :=
      { user_id := user_id
        action := action
        resource_type := resource_type
        resource_id := resource_id
        description := description
        ip_address := ip_address
        user_agent := user_agent
        old_value := old_value
        new_value := new_value
        changes := changes } }

/-- The JSON record the DLQ handlers build around a failed event:
original payload, `str(error)`, `type(error).__name__`, the ISO timestamp
taken at DLQ time, and the producing service's name. -/
structure DLQRecord (α : Type) where
  original_event : α
  error : String
  error_type : String
  timestamp : String
  service : String
  deriving DecidableEq, Repr

/-- Producer operation observable from a DLQ handler: starting the
short-lived producer under a client id, one raw send of a DLQ record to a
topic, and stopping the producer. -/
inductive POp (α : Type) where
  | startP (client_id : String)
  | sendRawOp (topic : String) (rec : DLQRecord α)
  | stopP
  deriving DecidableEq, Repr

/-- `NotificationConsumer._handle_failed_event`
(notification_consumer.py): builds a fresh producer with client id
`settings.APP_NAME + "-dlq-producer"`, starts it, sends one DLQ record to
the `notification-dlq` topic via `send_raw` (whose boolean result is
ignored), and stops it.  `startOk` is the broker's verdict on the start;
when the start raises, the enclosing try/except swallows the exception,
so the function never raises and the trace stops at the attempted start.
`now` is `datetime.utcnow().isoformat()`. -/
def handleFailedEvent {α : Type} (appName : String) (now : String)
    (startOk : Bool) (event : α) (error : PyExc) : List (POp α) :=
  if startOk then
    [POp.startP (appName ++ "-dlq-producer"),
     POp.sendRawOp "notification-dlq"
       { original_event := event
         error := error.msg
         error_type := error.name
         timestamp := now
         service := appName },
     POp.stopP]
  else [POp.startP (appName ++ "-dlq-producer")]

/-- `AuditConsumer._handle_failed_batch` (audit_consumer.py): same
short-lived producer pattern with client id
`settings.APP_NAME + "-dlq-producer"`, then one `send_raw` per event of
the failed batch to the `audit-dlq` topic, then stop; any exception is
swallowed by the enclosing try/except. -/
def handleFailedBatch {α : Type} (appName : String) (now : String)
    (startOk : Bool) (events : List α) (error : PyExc) : List (POp α) :=
  if startOk then
    POp.startP (appName ++ "-dlq-producer") ::
      (events.map (fun ev =>
        POp.sendRawOp "audit-dlq"
          { original_event := ev
            error := error.msg
            error_type := error.name
            timestamp := now
            service := appName }) ++ [POp.stopP])
  else [POp.startP (appName ++ "-dlq-producer")]

/-- Modelled from the spec's wording of the commit discipline (not from
the source): for each received message the handler is invoked first; when
it raises and a DLQ handler is registered, the DLQ handler runs next; in
every case exactly one commit closes the message's block before the next
message is processed. -/
def specSingleMessageBlock {α : Type} (handler : α → Option PyExc)
    (dlqHandler : Option (α → PyExc → Option PyExc)) (m : α) : List (Ev α) :=
  match handler m with
  | none => [Ev.handlerCall m, Ev.commit]
  | some e =>
      match dlqHandler with
      | none => [Ev.handlerCall m, Ev.commit]
      | some _ => [Ev.handlerCall m, Ev.dlqCall m e, Ev.commit]

/-- Splits a list into consecutive chunks of `n` elements; the final
chunk is shorter when `n` does not divide the length. -/
def chunksOf {α : Type} (n : Nat) : List α → List (List α)
  | [] => []
  | x :: xs =>
      if _h : n = 0 then []
      else (x :: xs).take n :: chunksOf n ((x :: xs).drop n)
termination_by l => l.length
decreasing_by
  simp only [List.length_drop, List.length_cons]
  omega

/-- The producer value a first `get_producer` call builds and starts. -/
def freshStartedProducer (bs cid : String) : KafkaProducer :=
  (producerStart (KafkaProducer.init bs (some cid)) true).1

/-- Concrete started consumer with manual offset commit, used to
instantiate the consumer theorems. -/
def cW : KafkaConsumer :=
  { bootstrap_servers := "kafka:9092"
    group_id := "notification-service-group"
    topics := ["notification-queue"]
    enable_auto_commit := false
    started := true
    hasConn := true }

/-- Concrete consumer that was never started. -/
def cNot : KafkaConsumer :=
  { bootstrap_servers := "kafka:9092"
    group_id := "notification-service-group"
    topics := ["notification-queue"]
    enable_auto_commit := false
    started := false
    hasConn := false }

/-- Concrete exception value used in instantiations. -/
def excW : PyExc := { name := "ValueError", msg := "boom" }

/-- Concrete single-message handler over `Nat` payloads that raises
`excW` on payload 0 and succeeds otherwise. -/
def hW : Nat → Option PyExc := fun n => if n = 0 then some excW else none

/-- Concrete DLQ handler that itself raises. -/
def dlqRaisingW : Nat → PyExc → Option PyExc :=
  fun _ _ => some { name := "KafkaError", msg := "dlq down" }

/-- Concrete batch handler that always succeeds. -/
def bOkW : List Nat → Option PyExc := fun _ => none

/-- Concrete started producer value. -/
def pStartedW : KafkaProducer :=
  (producerStart (KafkaProducer.init "kafka:9092" none) true).1

/-- Concrete producer value that was never started. -/
def pNewW : KafkaProducer := KafkaProducer.init "kafka:9092" none

/-- With auto-commit disabled, the single-message loop emits exactly the
spec's per-message block for each delivered message, in delivery order. -/
theorem consumeLoop_eq_flatMap {α : Type} (c : KafkaConsumer)
    (ha : c.enable_auto_commit = false) (handler : α → Option PyExc)
    (dlqHandler : Option (α → PyExc → Option PyExc)) (msgs : List α) :
    consumeLoop c handler dlqHandler msgs =
      msgs.flatMap (specSingleMessageBlock handler dlqHandler) := by
  induction msgs with
  | nil => simp [consumeLoop]
  | cons m rest ih =>
      cases hm : handler m with
      | none => simp [consumeLoop, specSingleMessageBlock, hm, ha, ih]
      | some e =>
          cases dlqHandler with
          | none => simp [consumeLoop, specSingleMessageBlock, hm, ha, ih]
          | some dlq =>
              cases hd : dlq m e <;>
                simp [consumeLoop, specSingleMessageBlock, hm, hd, ha, ih]

/-- Each spec per-message block carries exactly one commit. -/
theorem specBlock_count_commit {α : Type} [DecidableEq α]
    (handler : α → Option PyExc)
    (dlqHandler : Option (α → PyExc → Option PyExc)) (m : α) :
    (specSingleMessageBlock handler dlqHandler m).count Ev.commit = 1 := by
  cases hm : handler m with
  | none => simp [specSingleMessageBlock, hm]
  | some e => cases dlqHandler <;> simp [specSingleMessageBlock, hm]

/-- C1: with auto-commit disabled, a started consumer running `consume`
commits exactly once per received message — after the handler (and, on
failure, after DLQ handling), never before the handler is invoked — and
each commit precedes the processing of the next message: the trace is
the concatenation of per-message blocks each ending in its single
commit, and the total number of commits equals the number of messages. -/
theorem consume_commit_discipline {α : Type} [DecidableEq α]
    (c : KafkaConsumer) (handler : α → Option PyExc)
    (dlqHandler : Option (α → PyExc → Option PyExc)) (msgs : List α)
    (hs : c.started = true) (hcn : c.hasConn = true)
    (ha : c.enable_auto_commit = false) :
    consume c handler dlqHandler msgs =
        msgs.flatMap (specSingleMessageBlock handler dlqHandler) ∧
      (consume c handler dlqHandler msgs).count Ev.commit = msgs.length := by
  have h1 : consume c handler dlqHandler msgs = consumeLoop c handler dlqHandler msgs := by
    simp [consume, hs, hcn]
  rw [h1, consumeLoop_eq_flatMap c ha]
  clear h1
  refine ⟨rfl, ?_⟩
  induction msgs with
  | nil => simp
  | cons m rest ih =>
      rw [List.flatMap_cons, List.count_append, specBlock_count_commit, ih]
      simp only [List.length_cons]
      omega

/-- Witness for C1: a started manual-commit consumer over messages
`[0, 1]` (the handler raises on 0) commits exactly twice. -/
theorem consume_commit_discipline_witness :
    (consume cW hW (some dlqRaisingW) [0, 1]).count Ev.commit = 2 :=
  (consume_commit_discipline cW hW (some dlqRaisingW) [0, 1] rfl rfl rfl).2

/-- The single-message loop distributes over list concatenation: no
state is carried across messages. -/
theorem consumeLoop_append {α : Type} (c : KafkaConsumer)
    (handler : α → Option PyExc)
    (dlqHandler : Option (α → PyExc → Option PyExc)) (l₁ l₂ : List α) :
    consumeLoop c handler dlqHandler (l₁ ++ l₂) =
      consumeLoop c handler dlqHandler l₁ ++ consumeLoop c handler dlqHandler l₂ := by
  induction l₁ with
  | nil => simp [consumeLoop]
  | cons m rest ih =>
      cases hm : handler m with
      | none => simp [consumeLoop, hm, ih]
      | some e =>
          cases dlqHandler with
          | none => simp [consumeLoop, hm, ih]
          | some dlq => cases hd : dlq m e <;> simp [consumeLoop, hm, hd, ih]

/-- C2: in `consume` with a registered DLQ handler, a message whose
handler raises produces exactly one DLQ invocation with the original
payload and the raised exception, followed by a commit, after which the
loop continues with the remaining messages; this holds for every DLQ
handler, including one that itself raises (its exception is swallowed). -/
theorem consume_dlq_on_failure {α : Type} (c : KafkaConsumer)
    (handler : α → Option PyExc) (dlq : α → PyExc → Option PyExc)
    (m : α) (e : PyExc) (pre post : List α)
    (hs : c.started = true) (hcn : c.hasConn = true)
    (ha : c.enable_auto_commit = false) (hm : handler m = some e) :
    consume c handler (some dlq) (pre ++ m :: post) =
      consume c handler (some dlq) pre ++
        Ev.handlerCall m :: Ev.dlqCall m e :: Ev.commit ::
          consume c handler (some dlq) post := by
  simp only [consume, hs, hcn, not_true, or_self, if_false]
  rw [consumeLoop_append]
  congr 1
  cases hd : dlq m e <;> simp [consumeLoop, hm, hd, ha]

/-- Witness for C2: message 0 fails under `hW`, the raising DLQ handler
is invoked with payload 0 and `excW`, and the commit still happens
before message 2 is processed. -/
theorem consume_dlq_on_failure_witness :
    consume cW hW (some dlqRaisingW) ([1] ++ 0 :: [2]) =
      consume cW hW (some dlqRaisingW) [1] ++
        Ev.handlerCall 0 :: Ev.dlqCall 0 excW :: Ev.commit ::
          consume cW hW (some dlqRaisingW) [2] :=
  consume_dlq_on_failure cW hW dlqRaisingW 0 excW [1] [2] rfl rfl rfl rfl

/-- C3, code behaviour at the failing input: with batch size 2, one
queued message, a batch handler that raises and a DLQ handler present,
the final partial batch is forwarded to the DLQ handler but the trace
contains no commit — the failure branch of the final-batch flush in
`consume_batch` omits the commit that the in-loop failure branch
performs. -/
theorem consume_batch_final_failure_no_commit :
    consume_batch cW (fun _ => some excW) (some fun _ _ => none) 2 [7] =
        [Ev.batchCall [7], Ev.dlqBatchCall [7] excW] ∧
      (consume_batch cW (fun _ => some excW) (some fun _ _ => none) 2
            [7]).count Ev.commit = 0 :=
  ⟨rfl, rfl⟩

/-- C5: `send_event` returns false at once when the producer is not in
the started state (before `start()` or after `stop()`), never raising;
on a started producer it returns true exactly when the broker
acknowledged, and false on any Kafka-level or other transport error. -/
theorem send_event_ack_contract (p : KafkaProducer) (outcome : SendOutcome) :
    ((p.started = false ∨ p.hasConn = false) → send_event p outcome = false) ∧
      (p.started = true → p.hasConn = true →
        (send_event p outcome = true ↔ outcome = SendOutcome.acked)) := by
  constructor
  · intro h
    rcases h with h | h <;> simp [send_event, h]
  · intro hs hc
    cases outcome <;> simp [send_event, hs, hc]

/-- Witness for C5 at a never-started producer and at a started one. -/
theorem send_event_ack_contract_witness :
    send_event pNewW SendOutcome.acked = false ∧
      (send_event pStartedW SendOutcome.acked = true ↔
        SendOutcome.acked = SendOutcome.acked) :=
  ⟨(send_event_ack_contract pNewW SendOutcome.acked).1 (Or.inl rfl),
   (send_event_ack_contract pStartedW SendOutcome.acked).2 rfl rfl⟩

/-- C8: `start()` on an already-started producer is a no-op (logged
warning only) that neither raises nor changes state, and `stop()` on a
producer that is not started — including one never started — is a no-op
that neither raises nor changes state. -/
theorem producer_lifecycle_idempotent (p q : KafkaProducer) (ok1 ok2 : Bool)
    (hp : p.started = true) (hq : q.started = false) :
    producerStart p ok1 = (p, false) ∧ producerStop q ok2 = (q, false) := by
  constructor
  · simp [producerStart, hp]
  · simp [producerStop, hq]

/-- Witness for C8 at a started and a never-started producer. -/
theorem producer_lifecycle_idempotent_witness :
    producerStart pStartedW true = (pStartedW, false) ∧
      producerStop pNewW true = (pNewW, false) :=
  producer_lifecycle_idempotent pStartedW pNewW true true rfl rfl

/-- C10: `consume` and `consume_batch` on a consumer that has not been
started return immediately with an empty trace — no handler invocation,
no DLQ invocation and no commit. -/
theorem consume_requires_start {α : Type} (c : KafkaConsumer)
    (handler : α → Option PyExc)
    (dlqHandler : Option (α → PyExc → Option PyExc))
    (bhandler : List α → Option PyExc)
    (bdlq : Option (List α → PyExc → Option PyExc))
    (batchSize : Nat) (msgs : List α) (hs : c.started = false) :
    consume c handler dlqHandler msgs = [] ∧
      consume_batch c bhandler bdlq batchSize msgs = [] := by
  constructor <;> simp [consume, consume_batch, hs]

/-- Witness for C10 at the never-started consumer. -/
theorem consume_requires_start_witness :
    consume cNot hW (some dlqRaisingW) [0, 1] = [] ∧
      consume_batch cNot bOkW none 2 [0, 1] = [] :=
  consume_requires_start cNot hW (some dlqRaisingW) bOkW none 2 [0, 1] rfl

/-- C6, counterexample: `create_notification_event` accepts the
leave-domain event type `leave.approved` and constructs the envelope
with no validation error; the payload keeps the notification shape, so
the constructed envelope's `data` shape is not determined by its
`event_type`. -/
theorem create_notification_event_accepts_leave_type :
    create_notification_event "leave-service" "emp@example.com"
        "Leave update" "leave_status" [] EventType.LEAVE_APPROVED none
        "normal" none "id-1" "2024-01-01T00:00:00" =
      { event_id := "id-1"
        event_type := EventType.LEAVE_APPROVED
        timestamp := "2024-01-01T00:00:00"
        source_service := "leave-service"
        correlation_id := none
        data :=
          { recipient_email := "emp@example.com"
            recipient_name := none
            subject := "Leave update"
            template_name := "leave_status"
            template_data := []
            priority := "normal" } } :=
  rfl

/-- C6 amended: the factories enforce required payload fields through
their signatures, but they perform no per-domain check on `event_type`:
every member of the `EventType` enumeration is accepted, the given value
is stamped unchanged into the envelope, and the payload shape is the one
fixed by the factory that was called, independent of `event_type`. -/
theorem factories_accept_any_event_type (et : EventType)
    (svc re subj tmpl pr fid fts : String) (td : JsonDict)
    (rn cid : Option String) (uid : Int) (act rty : String) (rid : Int)
    (des ip ua ov nv : Option String) (ch : Option JsonDict) :
    (create_notification_event svc re subj tmpl td et rn pr cid fid
        fts).event_type = et ∧
      (create_notification_event svc re subj tmpl td et rn pr cid fid
          fts).data =
        { recipient_email := re
          recipient_name := rn
          subject := subj
          template_name := tmpl
          template_data := td
          priority := pr } ∧
      (create_audit_event svc uid act rty rid et des ip ua ov nv ch cid fid
          fts).event_type = et ∧
      (create_audit_event svc uid act rty rid et des ip ua ov nv ch cid fid
          fts).data =
        { user_id := uid
          action := act
          resource_type := rty
          resource_id := rid
          description := des
          ip_address := ip
          user_agent := ua
          old_value := ov
          new_value := nv
          changes := ch } :=
  ⟨rfl, rfl, rfl, rfl⟩

/-- C7: on a handler or batch-handler exception routed to the DLQ path,
the service DLQ handlers start a dedicated short-lived producer whose
client id is the service name suffixed with `-dlq-producer`, send one
raw record per failed event — carrying original_event, error,
error_type, timestamp and service — to the fixed per-domain DLQ topic,
then stop the producer; when even the producer start fails, the
exception is swallowed and the handler simply returns. -/
theorem dlq_redirect_contract {α : Type} (appName now : String) (event : α)
    (events : List α) (error : PyExc) :
    handleFailedEvent appName now true event error =
        [POp.startP (appName ++ "-dlq-producer"),
         POp.sendRawOp "notification-dlq"
           { original_event := event
             error := error.msg
             error_type := error.name
             timestamp := now
             service := appName },
         POp.stopP] ∧
      handleFailedBatch appName now true events error =
        POp.startP (appName ++ "-dlq-producer") ::
          (events.map (fun ev =>
            POp.sendRawOp "audit-dlq"
              { original_event := ev
                error := error.msg
                error_type := error.name
                timestamp := now
                service := appName }) ++ [POp.stopP]) ∧
      handleFailedEvent appName now false event error =
        [POp.startP (appName ++ "-dlq-producer")] :=
  ⟨rfl, rfl, rfl⟩

/-- Once the module global holds an instance, any sequence of further
`get_producer` calls returns exactly that instance and leaves the global
unchanged, whatever arguments and start outcomes the calls carry. -/
theorem runGetCalls_some (p : KafkaProducer)
    (calls : List (String × String × Bool)) :
    runGetCalls (some p) calls =
      (List.replicate calls.length (some p), some p) := by
  induction calls with
  | nil => rfl
  | cons cl rest ih =>
      obtain ⟨bs, cid, ok⟩ := cl
      simp [runGetCalls, get_producer, ih, List.replicate_succ]

/-- C9: the first `get_producer` call on an empty global builds, starts
and publishes an instance from its own arguments; every later call
returns that same instance while its arguments are ignored, and the
singleton keeps the first call's `bootstrap_servers` and `client_id` —
the latter as the constructor computes it, with the falsy empty string
replaced by `"hrms-producer"`; only `close_producer` resets the global,
after which a new call builds a fresh instance from its own
arguments. -/
theorem get_producer_singleton (bs1 cid1 : String)
    (calls : List (String × String × Bool)) (stopOk : Bool)
    (bs2 cid2 : String) :
    get_producer none bs1 cid1 true =
        (some (freshStartedProducer bs1 cid1),
          some (freshStartedProducer bs1 cid1), false) ∧
      runGetCalls (some (freshStartedProducer bs1 cid1)) calls =
        (List.replicate calls.length (some (freshStartedProducer bs1 cid1)),
          some (freshStartedProducer bs1 cid1)) ∧
      (freshStartedProducer bs1 cid1).bootstrap_servers = bs1 ∧
      (freshStartedProducer bs1 cid1).client_id =
        (if cid1 = "" then "hrms-producer" else cid1) ∧
      close_producer (some (freshStartedProducer bs1 cid1)) stopOk = none ∧
      get_producer none bs2 cid2 true =
        (some (freshStartedProducer bs2 cid2),
          some (freshStartedProducer bs2 cid2), false) :=
  ⟨rfl, runGetCalls_some _ calls, rfl, rfl, rfl, rfl⟩

/-- Unfolding of `chunksOf` on a nonempty list with positive chunk size. -/
theorem chunksOf_ne_nil_eq {α : Type} (n : Nat) (hn : n ≠ 0) (l : List α)
    (hl : l ≠ []) :
    chunksOf n l = l.take n :: chunksOf n (l.drop n) := by
  cases l with
  | nil => exact absurd rfl hl
  | cons x xs =>
      rw [chunksOf]
      exact dif_neg hn

/-- Chunk sizes: for positive `n`, `chunksOf n l` consists of
`l.length / n` chunks of exactly `n` elements, followed by one chunk of
`l.length % n` elements when `n` does not divide the length. -/
theorem chunksOf_map_length_aux {α : Type} (n : Nat) (hn : 0 < n) :
    ∀ (fuel : Nat) (l : List α), l.length ≤ fuel →
      (chunksOf n l).map List.length =
        List.replicate (l.length / n) n ++
          (if l.length % n = 0 then [] else [l.length % n]) := by
  intro fuel
  induction fuel with
  | zero =>
      intro l hl
      have h0 : l = [] := List.eq_nil_of_length_eq_zero (Nat.le_zero.mp hl)
      subst h0
      simp [chunksOf]
  | succ f ih =>
      intro l hl
      cases l with
      | nil => simp [chunksOf]
      | cons x xs =>
          have hne : x :: xs ≠ ([] : List α) := by simp
          rw [chunksOf_ne_nil_eq n (Nat.pos_iff_ne_zero.mp hn) _ hne,
            List.map_cons]
          by_cases hcmp : n ≤ (x :: xs).length
          · have htk : ((x :: xs).take n).length = n := by
              rw [List.length_take]
              omega
            have hdl : ((x :: xs).drop n).length = (x :: xs).length - n := by
              simp
            have hrec := ih ((x :: xs).drop n) (by
              rw [hdl]
              simp only [List.length_cons] at hl ⊢
              omega)
            rw [htk, hrec, hdl, Nat.div_eq_sub_div hn hcmp,
              Nat.mod_eq_sub_mod hcmp, List.replicate_succ, List.cons_append]
          · push_neg at hcmp
            have htk : (x :: xs).take n = x :: xs :=
              List.take_of_length_le (Nat.le_of_lt hcmp)
            have hdr : (x :: xs).drop n = [] :=
              List.drop_eq_nil_of_le (Nat.le_of_lt hcmp)
            have hdiv : (x :: xs).length / n = 0 := Nat.div_eq_of_lt hcmp
            have hmod : (x :: xs).length % n = (x :: xs).length :=
              Nat.mod_eq_of_lt hcmp
            rw [htk, hdr, hdiv, hmod]
            simp [chunksOf]

/-- Wrapper of `chunksOf_map_length_aux` with the fuel instantiated. -/
theorem chunksOf_map_length {α : Type} (n : Nat) (hn : 0 < n) (l : List α) :
    (chunksOf n l).map List.length =
      List.replicate (l.length / n) n ++
        (if l.length % n = 0 then [] else [l.length % n]) :=
  chunksOf_map_length_aux n hn l.length l le_rfl

/-- With auto-commit off and a never-failing batch handler, the batch
loop starting from a pending batch strictly below the threshold emits
one handler-call-plus-commit block per `N`-chunk of the pending batch
followed by the stream. -/
theorem consumeBatchLoop_ok {α : Type} (c : KafkaConsumer)
    (ha : c.enable_auto_commit = false) (handler : List α → Option PyExc)
    (hok : ∀ b, handler b = none)
    (dlqHandler : Option (List α → PyExc → Option PyExc)) (N : Nat)
    (hn : 0 < N) :
    ∀ (msgs acc : List α), acc.length < N →
      consumeBatchLoop c handler dlqHandler N acc msgs =
        (chunksOf N (acc ++ msgs)).flatMap
          (fun b => [Ev.batchCall b, Ev.commit]) := by
  intro msgs
  induction msgs with
  | nil =>
      intro acc hacc
      cases acc with
      | nil => simp [consumeBatchLoop, chunksOf]
      | cons a as =>
          have hne : a :: as ≠ ([] : List α) := by simp
          rw [List.append_nil,
            chunksOf_ne_nil_eq N (Nat.pos_iff_ne_zero.mp hn) _ hne,
            List.take_of_length_le (Nat.le_of_lt hacc),
            List.drop_eq_nil_of_le (Nat.le_of_lt hacc)]
          simp [consumeBatchLoop, chunksOf, hok, ha]
  | cons m rest ih =>
      intro acc hacc
      by_cases hfull : N ≤ (acc ++ [m]).length
      · have hlen : (acc ++ [m]).length = N := by
          simp only [List.length_append, List.length_cons,
            List.length_nil] at hfull ⊢
          omega
        have l1 : consumeBatchLoop c handler dlqHandler N acc (m :: rest) =
            Ev.batchCall (acc ++ [m]) :: Ev.commit ::
              consumeBatchLoop c handler dlqHandler N [] rest := by
          simp only [consumeBatchLoop]
          rw [if_pos hfull, hok (acc ++ [m])]
          simp [ha]
        have hsplit : acc ++ m :: rest = (acc ++ [m]) ++ rest := by simp
        have hne2 : (acc ++ [m]) ++ rest ≠ ([] : List α) := by simp
        rw [l1, ih [] hn, hsplit,
          chunksOf_ne_nil_eq N (Nat.pos_iff_ne_zero.mp hn) _ hne2,
          List.take_left' hlen, List.drop_left' hlen]
        simp
      · push_neg at hfull
        have l1 : consumeBatchLoop c handler dlqHandler N acc (m :: rest) =
            consumeBatchLoop c handler dlqHandler N (acc ++ [m]) rest := by
          simp only [consumeBatchLoop]
          rw [if_neg (Nat.not_le.mpr hfull)]
        rw [l1, ih (acc ++ [m]) hfull]
        congr 1
        simp

/-- C4: batch boundary — for a started manual-commit consumer with batch
size N > 0 and M > N queued messages under a never-failing batch
handler, the trace is one handler-invocation block ending in exactly one
commit per chunk, where the chunks are floor(M/N) full batches of
exactly N messages plus one final batch of M mod N messages when N does
not divide M. -/
theorem consume_batch_boundary {α : Type} (c : KafkaConsumer)
    (handler : List α → Option PyExc)
    (dlqHandler : Option (List α → PyExc → Option PyExc)) (N : Nat)
    (msgs : List α) (hs : c.started = true) (hcn : c.hasConn = true)
    (ha : c.enable_auto_commit = false) (hn : 0 < N)
    (_hm : N < msgs.length) (hok : ∀ b, handler b = none) :
    consume_batch c handler dlqHandler N msgs =
        (chunksOf N msgs).flatMap (fun b => [Ev.batchCall b, Ev.commit]) ∧
      (chunksOf N msgs).map List.length =
        List.replicate (msgs.length / N) N ++
          (if msgs.length % N = 0 then [] else [msgs.length % N]) := by
  constructor
  · have h1 : consume_batch c handler dlqHandler N msgs =
        consumeBatchLoop c handler dlqHandler N [] msgs := by
      simp [consume_batch, hs, hcn]
    rw [h1, consumeBatchLoop_ok c ha handler hok dlqHandler N hn msgs []
      (by simpa using hn)]
    simp
  · exact chunksOf_map_length N hn msgs

/-- Witness for C4: batch size 2 over five messages gives two full
batches of two plus a final batch of one, each followed by one commit. -/
theorem consume_batch_boundary_witness :
    consume_batch cW bOkW none 2 [0, 1, 2, 3, 4] =
        (chunksOf 2 [0, 1, 2, 3, 4]).flatMap
          (fun b => [Ev.batchCall b, Ev.commit]) ∧
      (chunksOf 2 [0, 1, 2, 3, 4]).map List.length =
        List.replicate ([0, 1, 2, 3, 4].length / 2) 2 ++
          (if [0, 1, 2, 3, 4].length % 2 = 0 then []
            else [[0, 1, 2, 3, 4].length % 2]) :=
  consume_batch_boundary cW bOkW none 2 [0, 1, 2, 3, 4] rfl rfl rfl
    (by decide) (by decide) (fun b => rfl)

end HRMS
